import Mathlib

/-!
Shallow embedding of gazebo's `Simulator` (Simulator.cc): the simulation clock
(`simTime`, `pauseTime`, `startTime`), the control flags (`pause`, `stepInc`,
`userQuit`, the subsystem enable flags, `timeout`), the body of
`Simulator::PhysicsLoop`, the body of `Simulator::MainLoop`, the control
surface (setters and getters), entity selection, and the parent-chain
traversals `GetParentModel` / `GetParentBody`.

Times are modelled as exact rationals (the C++ `Time` class is a
seconds/nanoseconds pair with exact arithmetic; `double` rate parameters are
modelled exactly as well).  Each call to `GetRealTime()` / `GetWallTime()`
reads an external clock; every distinct call site in a loop iteration is
given its own reading, supplied as an explicit parameter.  External
collaborators (World, PhysicsEngine, OgreAdaptor, Gui) do not touch any
`Simulator` field; their invocations are recorded as trace events where a
claim needs them (lock discipline) and omitted otherwise.
-/

namespace Gazebo

/-- Lifecycle states of the simulator (`Simulator::State`: LOAD, INIT, RUN). -/
inductive SimulatorState
  | LOAD
  | INIT
  | RUN
deriving DecidableEq, Repr

/-- The `Simulator` fields relevant to the control loop, from Simulator.hh /
the constructor initializer list (Simulator.cc lines 55-80).  The counters
`physicsUpdates`, `checkpoint`, `renderUpdates` and the collaborator pointers
are omitted: no operation modelled here reads them. -/
structure Simulator where
  state : SimulatorState
  loaded : Bool
  pause : Bool
  simTime : ℚ
  pauseTime : ℚ
  startTime : ℚ
  stepInc : Bool
  userQuit : Bool
  guiEnabled : Bool
  renderEngineEnabled : Bool
  physicsEnabled : Bool
  timeout : ℚ
  selectedEntity : Option Nat
deriving DecidableEq, Repr

/-- The `Simulator::Simulator()` constructor: all flags from the initializer
list; `startTime = this->GetWallTime()` (line 79), where `wall0` is the wall
clock reading taken during construction.  The lifecycle `state` field is not
assigned by the constructor; it is represented here with the value it receives
at the first transition (`LOAD`). -/
def Simulator.construct (wall0 : ℚ) : Simulator :=
  { state := SimulatorState.LOAD
    loaded := false
    pause := false
    simTime := 0
    pauseTime := 0
    startTime := wall0
    stepInc := false
    userQuit := false
    guiEnabled := true
    renderEngineEnabled := true
    physicsEnabled := true
    timeout := -1
    selectedEntity := none }

/-- `Simulator::GetWallTime()`: reads the external monotonic clock; the
reading is the supplied value. -/
def Simulator.GetWallTime (wall : ℚ) : ℚ := wall

/-- `Simulator::GetStartTime()`. -/
def Simulator.GetStartTime (s : Simulator) : ℚ := s.startTime

/-- `Simulator::GetRealTime()`: returns `this->GetWallTime() - this->startTime`
(line 462), where `wall` is the wall clock reading taken during the call. -/
def Simulator.GetRealTime (s : Simulator) (wall : ℚ) : ℚ :=
  Simulator.GetWallTime wall - s.startTime

/-- `Simulator::GetSimTime()`. -/
def Simulator.GetSimTime (s : Simulator) : ℚ := s.simTime

/-- `Simulator::GetPauseTime()`. -/
def Simulator.GetPauseTime (s : Simulator) : ℚ := s.pauseTime

/-- `Simulator::IsPaused()`. -/
def Simulator.IsPaused (s : Simulator) : Bool := s.pause

/-- `Simulator::GetStepInc()`. -/
def Simulator.GetStepInc (s : Simulator) : Bool := s.stepInc

/-- `Simulator::SetPaused(bool)` (lines 419-428): under the MR mutex, return
unchanged if the value is unchanged (skipping the pauseSignal), otherwise
fire pauseSignal (external) and assign. -/
def Simulator.SetPaused (s : Simulator) (p : Bool) : Simulator :=
  if s.pause = p then s else { s with pause := p }

/-- `Simulator::SetStepInc(bool)` (lines 489-493): under the MR mutex, assign
`stepInc`. -/
def Simulator.SetStepInc (s : Simulator) (b : Bool) : Simulator :=
  { s with stepInc := b }

/-- `Simulator::SetUserQuit()`. -/
def Simulator.SetUserQuit (s : Simulator) : Simulator :=
  { s with userQuit := true }

/-- `Simulator::SetTimeout(double)`. -/
def Simulator.SetTimeout (s : Simulator) (t : ℚ) : Simulator :=
  { s with timeout := t }

/-- `Simulator::SetSimTime(Time)`. -/
def Simulator.SetSimTime (s : Simulator) (t : ℚ) : Simulator :=
  { s with simTime := t }

/-- `Simulator::SetGuiEnabled(bool)`. -/
def Simulator.SetGuiEnabled (s : Simulator) (b : Bool) : Simulator :=
  { s with guiEnabled := b }

/-- `Simulator::SetRenderEngineEnabled(bool)`. -/
def Simulator.SetRenderEngineEnabled (s : Simulator) (b : Bool) : Simulator :=
  { s with renderEngineEnabled := b }

/-- `Simulator::SetPhysicsEnabled(bool)`. -/
def Simulator.SetPhysicsEnabled (s : Simulator) (b : Bool) : Simulator :=
  { s with physicsEnabled := b }

/-- `Simulator::GetSelectedEntity()`. -/
def Simulator.GetSelectedEntity (s : Simulator) : Option Nat := s.selectedEntity

/-- `Simulator::SetSelectedEntity(Entity*)` (lines 546-575).  Entities are
identified by their id; NULL is `none`.  First block: if an entity is
currently selected, hide its selection box, clear its selected flag (both
external calls on that entity) and set `selectedEntity = NULL`.  Then, if
`selectedEntity != ent`, select `ent` (show its box, set its flag); else set
`selectedEntity = NULL`.  The returned Bool records whether that final else
branch executed. -/
def Simulator.SetSelectedEntity (s : Simulator) (ent : Option Nat) :
    Simulator × Bool :=
  let s1 :=
    match s.selectedEntity with
    | some _ => { s with selectedEntity := none }
    | none => s
  if s1.selectedEntity ≠ ent then
    ({ s1 with selectedEntity := ent }, false)
  else
    ({ s1 with selectedEntity := none }, true)

/-- Kinds of entity in the parent-chain traversals: a `dynamic_cast<Model*>`
succeeds exactly on kind `model`, a `dynamic_cast<Body*>` exactly on kind
`body`. -/
inductive EntityKind
  | model
  | body
  | other
deriving DecidableEq, Repr

/-- An `Entity*` together with its parent chain: `leaf` has
`GetParent() == NULL`, `node` has a non-NULL parent. -/
inductive Ent
  | leaf (kind : EntityKind)
  | node (kind : EntityKind) (parent : Ent)
deriving DecidableEq, Repr

/-- The kind of an entity (which concrete class the object is). -/
def Ent.kind : Ent → EntityKind
  | Ent.leaf k => k
  | Ent.node k _ => k

/-- `Entity::GetParent()`. -/
def Ent.GetParent : Ent → Option Ent
  | Ent.leaf _ => none
  | Ent.node _ p => some p

/-- Kinds along the parent chain, the entity itself first. -/
def chainKinds : Ent → List EntityKind
  | Ent.leaf k => [k]
  | Ent.node k p => k :: chainKinds p

/-- Whether an Except result is a normal return. -/
def okB {α : Type} : Except Unit α → Bool
  | Except.ok _ => true
  | Except.error _ => false

/-- The do-while of `Simulator::GetParentModel` (lines 593-597): each round
computes `model = dynamic_cast<Model*>(entity)` and then unconditionally
evaluates `entity = entity->GetParent()`; it exits when the cast succeeded.
When the cast fails on an entity whose parent is NULL, the next round
evaluates `NULL->GetParent()`, a null-pointer dereference, modelled as
`Except.error ()`. -/
def parentScanModel : Ent → Except Unit Ent
  | Ent.leaf k =>
      if k = EntityKind.model then Except.ok (Ent.leaf k) else Except.error ()
  | Ent.node k p =>
      if k = EntityKind.model then Except.ok (Ent.node k p) else parentScanModel p

/-- The do-while of `Simulator::GetParentBody` (lines 611-615), same shape as
`parentScanModel` with `dynamic_cast<Body*>`. -/
def parentScanBody : Ent → Except Unit Ent
  | Ent.leaf k =>
      if k = EntityKind.body then Except.ok (Ent.leaf k) else Except.error ()
  | Ent.node k p =>
      if k = EntityKind.body then Except.ok (Ent.node k p) else parentScanBody p

/-- `Simulator::GetParentModel(Entity*)` (lines 586-600): NULL argument
returns NULL immediately; otherwise run the do-while traversal. -/
def Simulator.GetParentModel : Option Ent → Except Unit (Option Ent)
  | none => Except.ok none
  | some e => (parentScanModel e).map some

/-- `Simulator::GetParentBody(Entity*)` (lines 604-618). -/
def Simulator.GetParentBody : Option Ent → Except Unit (Option Ent)
  | none => Except.ok none
  | some e => (parentScanBody e).map some

/-- Per-thread physics parameters read once before the loop
(lines 628-630): `step = GetStepTime()`, `physicsUpdateRate = GetUpdateRate()`. -/
structure PhysicsParams where
  step : ℚ
  physicsUpdateRate : ℚ
deriving DecidableEq, Repr

/-- `Time physicsUpdatePeriod = 1.0 / physicsUpdateRate` (line 630). -/
def physicsUpdatePeriod (p : PhysicsParams) : ℚ := 1 / p.physicsUpdateRate

/-- The `GetRealTime()` readings taken by one iteration of
`Simulator::PhysicsLoop`, one per call site, in program order:
line 644 (`currTime`, unused before reassignment), line 661 (`lastTime`),
line 669 (`currTime`), lines 678-679 (the real-time-matching condition),
line 682 (the real-time-matching difference), line 706 (the timeout check). -/
structure RT where
  rStart : ℚ
  rLast : ℚ
  rCurr : ℚ
  rSleepCond : ℚ
  rSleepDiff : ℚ
  rTimeout : ℚ
deriving DecidableEq, Repr

/-- Events of one physics-loop iteration relevant to the lock discipline:
mutex acquisitions/releases, the world update, the nanosleep and the
simulation-interface dispatch. -/
inductive PhysEvent
  | acqWorldLock
  | acqModelDeleteLock
  | worldUpdate
  | relModelDeleteLock
  | relWorldLock
  | sleepEv
  | updateSimIface
deriving DecidableEq, Repr

/-- Lines 663-667: scoped locks on `GetMRMutex()` (worldLock) then
`GetMDMutex()` (modelDeleteLock), `world->Update()`, then destruction in
reverse declaration order releases modelDeleteLock first, then worldLock. -/
def lockEvents : List PhysEvent :=
  [PhysEvent.acqWorldLock, PhysEvent.acqModelDeleteLock, PhysEvent.worldUpdate,
   PhysEvent.relModelDeleteLock, PhysEvent.relWorldLock]

/-- Lock events of the single-step re-pause block (lines 712-716):
`SetStepInc(false)` and `SetPaused(true)` each take a scoped lock on
`GetMRMutex()` (worldLock) alone. -/
def setterLockEvents : List PhysEvent :=
  [PhysEvent.acqWorldLock, PhysEvent.relWorldLock,
   PhysEvent.acqWorldLock, PhysEvent.relWorldLock]

/-- Lines 651-659: if `!IsPaused() || GetStepInc()` advance
`simTime += step`, recording `userStepped = true` when `GetStepInc()`;
otherwise advance `pauseTime += step`.  Returns the updated state and
`userStepped`. -/
def timeAdvance (step : ℚ) (s : Simulator) : Simulator × Bool :=
  if !s.IsPaused || s.GetStepInc then
    ({ s with simTime := s.simTime + step }, s.GetStepInc)
  else
    ({ s with pauseTime := s.pauseTime + step }, false)

/-- Lines 672-673: the default nanosleep request,
`tv_sec = 0; tv_nsec = 10000`. -/
def defaultSleepQuantum : ℚ := 10000 / 1000000000

/-- Lines 671-695: the sleep request of one physics-loop iteration, computed
on the state `s1` current at that point (simTime/pauseTime already advanced).
First branch: `physicsUpdateRate < 0` and `GetSimTime() + GetPauseTime() >
GetRealTime()` (reading rSleepCond); then the request is
`(GetSimTime() + GetPauseTime()) - GetRealTime()` (a second reading,
rSleepDiff).  Second branch: `physicsUpdateRate > 0` and
`currTime - lastTime < physicsUpdatePeriod`; then the request is the
remainder of the period.  Otherwise the default request stands. -/
def physicsSleepTime (p : PhysicsParams) (rt : RT) (s1 : Simulator) : ℚ :=
  if p.physicsUpdateRate < 0 ∧
      s1.GetSimTime + s1.GetPauseTime > rt.rSleepCond then
    s1.GetSimTime + s1.GetPauseTime - rt.rSleepDiff
  else if p.physicsUpdateRate > 0 ∧
      rt.rCurr - rt.rLast < physicsUpdatePeriod p then
    physicsUpdatePeriod p - (rt.rCurr - rt.rLast)
  else
    defaultSleepQuantum

/-- Result of one physics-loop iteration: the simulator state at the end of
the iteration, the nanosleep request, whether the iteration exited the loop
through the timeout break (lines 706-710), and the event trace. -/
structure IterResult where
  sim : Simulator
  sleepReq : ℚ
  brokeOut : Bool
  events : List PhysEvent
deriving DecidableEq, Repr

/-- One iteration of the while body of `Simulator::PhysicsLoop`
(lines 639-717): advance time (651-659), update the world under both locks
(663-667), compute and perform the sleep (671-697), dispatch interface
updates (703), check the timeout and break (706-710), and, when the advance
consumed a step request, clear `stepInc` and re-pause (712-716).  The break
at line 709 skips the step block. -/
def physicsIter (p : PhysicsParams) (rt : RT) (s : Simulator) : IterResult :=
  let a := timeAdvance p.step s
  let s1 := a.1
  let userStepped := a.2
  let sleepReq := physicsSleepTime p rt s1
  if s1.timeout > 0 ∧ rt.rTimeout > s1.timeout then
    { sim := { s1 with userQuit := true }, sleepReq := sleepReq,
      brokeOut := true,
      events := lockEvents ++ [PhysEvent.sleepEv, PhysEvent.updateSimIface] }
  else if userStepped then
    { sim := (s1.SetStepInc false).SetPaused true, sleepReq := sleepReq,
      brokeOut := false,
      events := lockEvents ++ [PhysEvent.sleepEv, PhysEvent.updateSimIface]
                ++ setterLockEvents }
  else
    { sim := s1, sleepReq := sleepReq, brokeOut := false,
      events := lockEvents ++ [PhysEvent.sleepEv, PhysEvent.updateSimIface] }

/-- The physics loop run over a list of per-iteration clock readings: the
while condition `!this->userQuit` (line 639) is checked before each
iteration. -/
def physicsLoopN (p : PhysicsParams) : List RT → Simulator → Simulator
  | [], s => s
  | rt :: rest, s =>
      if s.userQuit then s else physicsLoopN p rest (physicsIter p rt s).sim

/-- Checker for the physics-loop lock discipline over an event trace, with
current hold counts of worldLock (w) and modelDeleteLock (md):
modelDeleteLock is acquired only while worldLock is held (fixed order);
the world update happens only with both held and is immediately followed by
the release of both; no lock is held during the sleep; the trace ends with
both released. -/
def checkLocks : List PhysEvent → Nat → Nat → Bool
  | [], w, md => decide (w = 0) && decide (md = 0)
  | PhysEvent.acqWorldLock :: rest, w, md => checkLocks rest (w + 1) md
  | PhysEvent.acqModelDeleteLock :: rest, w, md =>
      decide (0 < w) && checkLocks rest w (md + 1)
  | PhysEvent.worldUpdate :: rest, w, md =>
      decide (0 < w) && decide (0 < md) &&
      decide (rest.take 2 =
        [PhysEvent.relModelDeleteLock, PhysEvent.relWorldLock]) &&
      checkLocks rest w md
  | PhysEvent.relModelDeleteLock :: rest, w, md =>
      decide (0 < md) && checkLocks rest w (md - 1)
  | PhysEvent.relWorldLock :: rest, w, md =>
      decide (0 < w) && checkLocks rest (w - 1) md
  | PhysEvent.sleepEv :: rest, w, md =>
      decide (w = 0) && decide (md = 0) && checkLocks rest w md
  | PhysEvent.updateSimIface :: rest, w, md => checkLocks rest w md

/-- The `GetWallTime()` readings taken by one iteration of
`Simulator::MainLoop`, in program order: line 355 (`currTime`), line 358
(`lastTime`, frame branch only), line 369 (`currTime`, frame branch only). -/
structure WallReads where
  w0 : ℚ
  w1 : ℚ
  w2 : ℚ
deriving DecidableEq, Repr

/-- Result of one iteration of the while body of `Simulator::MainLoop`:
the value of the local `lastTime` afterwards, the nanosleep request (`none`
when the iteration does not sleep), and whether the frame work (GUI update,
camera update, graphics update, deferred entity processing) ran. -/
structure MainIterResult where
  lastTime : ℚ
  sleepReq : Option ℚ
  frame : Bool
deriving DecidableEq, Repr

/-- One iteration of the while body of `Simulator::MainLoop` (lines 353-390)
with `freq` the target frequency (80.0 at line 347): read `currTime`
(line 355); if `currTime - lastTime > 1.0/freq`, record `lastTime` from a
fresh reading (line 358), run the frame work (GUI update, camera update,
graphics update — all external), read `currTime` again (line 369), process
deferred entities (external), and if `currTime - lastTime < 1/freq` sleep
for `1.0/freq - (currTime - lastTime)`; otherwise sleep for
`1.0/freq - (currTime - lastTime)` without running the frame work. -/
def mainLoopIter (freq : ℚ) (w : WallReads) (lastTime : ℚ) : MainIterResult :=
  let currTime := w.w0
  if currTime - lastTime > 1 / freq then
    let lastTime2 := w.w1
    let currTime2 := w.w2
    if currTime2 - lastTime2 < 1 / freq then
      { lastTime := lastTime2,
        sleepReq := some (1 / freq - (currTime2 - lastTime2)), frame := true }
    else
      { lastTime := lastTime2, sleepReq := none, frame := true }
  else
    { lastTime := lastTime,
      sleepReq := some (1 / freq - (currTime - lastTime)), frame := false }

/-- The `Simulator::MainLoop` while loop (lines 353-392) over a list of
per-iteration observations, each an observed value of `this->userQuit`
together with that iteration's clock readings.  Returns the iteration
results and whether the loop exited and joined the physics thread
(line 392). -/
def mainLoopRun (freq : ℚ) :
    List (Bool × WallReads) → ℚ → List MainIterResult × Bool
  | [], _ => ([], false)
  | (q, w) :: rest, lastTime =>
      if q then ([], true)
      else
        let r := mainLoopIter freq w lastTime
        let next := mainLoopRun freq rest r.lastTime
        (r :: next.1, next.2)

/-- Operations on a `Simulator` modelled in this file: the control surface,
the lifecycle transitions, and the two loop bodies.  `Load` (lines 140-248)
sets `state = LOAD` and ends with `loaded = true`; collaborator loading is
external.  `Init` sets `state = INIT`; `MainLoop` entry sets `state = RUN`.
`Close` and `Fini` write no modelled field.  A `MainLoop` iteration writes no
`Simulator` field (its `lastTime` is a local). -/
inductive Op
  | setPaused (b : Bool)
  | setStepInc (b : Bool)
  | setUserQuit
  | setTimeout (t : ℚ)
  | setSimTime (t : ℚ)
  | setGuiEnabled (b : Bool)
  | setRenderEngineEnabled (b : Bool)
  | setPhysicsEnabled (b : Bool)
  | setSelectedEntity (e : Option Nat)
  | load
  | init
  | runEntry
  | close
  | fini
  | physicsIteration (p : PhysicsParams) (rt : RT)
  | mainIteration (w : WallReads)
deriving DecidableEq, Repr

/-- Effect of each operation on the `Simulator` fields. -/
def applyOp (s : Simulator) : Op → Simulator
  | Op.setPaused b => s.SetPaused b
  | Op.setStepInc b => s.SetStepInc b
  | Op.setUserQuit => s.SetUserQuit
  | Op.setTimeout t => s.SetTimeout t
  | Op.setSimTime t => s.SetSimTime t
  | Op.setGuiEnabled b => s.SetGuiEnabled b
  | Op.setRenderEngineEnabled b => s.SetRenderEngineEnabled b
  | Op.setPhysicsEnabled b => s.SetPhysicsEnabled b
  | Op.setSelectedEntity e => (s.SetSelectedEntity e).1
  | Op.load => { s with state := SimulatorState.LOAD, loaded := true }
  | Op.init => { s with state := SimulatorState.INIT }
  | Op.runEntry => { s with state := SimulatorState.RUN }
  | Op.close => s
  | Op.fini => s
  | Op.physicsIteration p rt => (physicsIter p rt s).sim
  | Op.mainIteration _ => s

/-- A sequence of operations applied in order. -/
def applyOps (s : Simulator) : List Op → Simulator
  | [] => s
  | op :: rest => applyOps (applyOp s op) rest

/-- A freshly constructed simulator that has been paused. -/
def pausedSample : Simulator := { Simulator.construct 0 with pause := true }

/-- A paused simulator with a configured one-second timeout. -/
def timeoutSample : Simulator :=
  { Simulator.construct 0 with pause := true, timeout := 1 }

/-- Clock readings that are all zero. -/
def rtSample : RT := RT.mk 0 0 0 0 0 0

/-- Clock readings whose timeout-check reading is past `timeoutSample`'s
timeout. -/
def rtTimeoutSample : RT := RT.mk 0 0 0 0 0 2

/-- A unit physics step with real-time-matching rate. -/
def paramsSample : PhysicsParams := PhysicsParams.mk 1 (-1)

lemma okB_map {α β : Type} (f : α → β) (x : Except Unit α) :
    okB (x.map f) = okB x := by
  cases x <;> rfl

lemma scanModel_ok (e : Ent) :
    okB (parentScanModel e) = decide (EntityKind.model ∈ chainKinds e) := by
  induction e with
  | leaf k =>
      by_cases hk : k = EntityKind.model <;>
        simp [parentScanModel, chainKinds, okB, hk, eq_comm]
  | node k p ih =>
      by_cases hk : k = EntityKind.model
      · simp [parentScanModel, chainKinds, okB, hk]
      · simp only [parentScanModel, chainKinds, if_neg hk]
        rw [ih]
        simp [hk, eq_comm]

lemma scanBody_ok (e : Ent) :
    okB (parentScanBody e) = decide (EntityKind.body ∈ chainKinds e) := by
  induction e with
  | leaf k =>
      by_cases hk : k = EntityKind.body <;>
        simp [parentScanBody, chainKinds, okB, hk, eq_comm]
  | node k p ih =>
      by_cases hk : k = EntityKind.body
      · simp [parentScanBody, chainKinds, okB, hk]
      · simp only [parentScanBody, chainKinds, if_neg hk]
        rw [ih]
        simp [hk, eq_comm]

/-- C9: for every non-NULL entity, SetSelectedEntity selects exactly that
entity (any current selection is cleared first, so the deselect else branch
is reachable only for a NULL argument), and calling SetSelectedEntity twice
with the same non-NULL entity re-selects it rather than toggling it off. -/
theorem setSelectedEntity_selects_nonnull :
    ∀ (s : Simulator) (i : Nat) (ent : Option Nat),
      (s.SetSelectedEntity (some i)).1.selectedEntity = some i
      ∧ ((s.SetSelectedEntity (some i)).1.SetSelectedEntity
          (some i)).1.selectedEntity = some i
      ∧ (s.SetSelectedEntity ent).2 = ent.isNone := by
  intro s i ent
  unfold Simulator.SetSelectedEntity
  rcases h : s.selectedEntity with _ | j <;> rcases ent with _ | k <;> simp [h]

/-- C10: GetParentModel and GetParentBody return NULL on a NULL argument
without traversing anything, and for a non-NULL argument the do-while
traversal avoids the null-parent dereference exactly when some entity on the
parent chain (the argument included) is a Model (respectively a Body). -/
theorem parent_traversal_safety :
    ∀ e : Ent,
      Simulator.GetParentModel none = Except.ok none
      ∧ Simulator.GetParentBody none = Except.ok none
      ∧ okB (Simulator.GetParentModel (some e))
          = decide (EntityKind.model ∈ chainKinds e)
      ∧ okB (Simulator.GetParentBody (some e))
          = decide (EntityKind.body ∈ chainKinds e) := by
  intro e
  refine ⟨rfl, rfl, ?_, ?_⟩
  · show okB ((parentScanModel e).map some) = _
    rw [okB_map, scanModel_ok]
  · show okB ((parentScanBody e).map some) = _
    rw [okB_map, scanBody_ok]

@[simp] lemma SetPaused_simTime (s : Simulator) (b : Bool) :
    (s.SetPaused b).simTime = s.simTime := by
  unfold Simulator.SetPaused; split <;> rfl

@[simp] lemma SetPaused_pauseTime (s : Simulator) (b : Bool) :
    (s.SetPaused b).pauseTime = s.pauseTime := by
  unfold Simulator.SetPaused; split <;> rfl

@[simp] lemma SetPaused_startTime (s : Simulator) (b : Bool) :
    (s.SetPaused b).startTime = s.startTime := by
  unfold Simulator.SetPaused; split <;> rfl

@[simp] lemma SetPaused_stepInc (s : Simulator) (b : Bool) :
    (s.SetPaused b).stepInc = s.stepInc := by
  unfold Simulator.SetPaused; split <;> rfl

@[simp] lemma SetPaused_userQuit (s : Simulator) (b : Bool) :
    (s.SetPaused b).userQuit = s.userQuit := by
  unfold Simulator.SetPaused; split <;> rfl

@[simp] lemma SetPaused_timeout (s : Simulator) (b : Bool) :
    (s.SetPaused b).timeout = s.timeout := by
  unfold Simulator.SetPaused; split <;> rfl

@[simp] lemma SetPaused_guiEnabled (s : Simulator) (b : Bool) :
    (s.SetPaused b).guiEnabled = s.guiEnabled := by
  unfold Simulator.SetPaused; split <;> rfl

@[simp] lemma SetPaused_renderEngineEnabled (s : Simulator) (b : Bool) :
    (s.SetPaused b).renderEngineEnabled = s.renderEngineEnabled := by
  unfold Simulator.SetPaused; split <;> rfl

@[simp] lemma SetPaused_physicsEnabled (s : Simulator) (b : Bool) :
    (s.SetPaused b).physicsEnabled = s.physicsEnabled := by
  unfold Simulator.SetPaused; split <;> rfl

@[simp] lemma SetPaused_true_pause (s : Simulator) :
    (s.SetPaused true).pause = true := by
  unfold Simulator.SetPaused; split <;> simp_all

@[simp] lemma SetStepInc_stepInc (s : Simulator) (b : Bool) :
    (s.SetStepInc b).stepInc = b := rfl

@[simp] lemma SetStepInc_simTime (s : Simulator) (b : Bool) :
    (s.SetStepInc b).simTime = s.simTime := rfl

@[simp] lemma SetStepInc_pauseTime (s : Simulator) (b : Bool) :
    (s.SetStepInc b).pauseTime = s.pauseTime := rfl

@[simp] lemma SetStepInc_startTime (s : Simulator) (b : Bool) :
    (s.SetStepInc b).startTime = s.startTime := rfl

@[simp] lemma SetStepInc_pause (s : Simulator) (b : Bool) :
    (s.SetStepInc b).pause = s.pause := rfl

@[simp] lemma SetStepInc_userQuit (s : Simulator) (b : Bool) :
    (s.SetStepInc b).userQuit = s.userQuit := rfl

@[simp] lemma SetStepInc_timeout (s : Simulator) (b : Bool) :
    (s.SetStepInc b).timeout = s.timeout := rfl

@[simp] lemma SetStepInc_guiEnabled (s : Simulator) (b : Bool) :
    (s.SetStepInc b).guiEnabled = s.guiEnabled := rfl

@[simp] lemma SetStepInc_renderEngineEnabled (s : Simulator) (b : Bool) :
    (s.SetStepInc b).renderEngineEnabled = s.renderEngineEnabled := rfl

@[simp] lemma SetStepInc_physicsEnabled (s : Simulator) (b : Bool) :
    (s.SetStepInc b).physicsEnabled = s.physicsEnabled := rfl

@[simp] lemma SetSelectedEntity_startTime (s : Simulator) (e : Option Nat) :
    (s.SetSelectedEntity e).1.startTime = s.startTime := by
  simp only [Simulator.SetSelectedEntity]
  split <;> split <;> rfl

@[simp] lemma SetSelectedEntity_guiEnabled (s : Simulator) (e : Option Nat) :
    (s.SetSelectedEntity e).1.guiEnabled = s.guiEnabled := by
  simp only [Simulator.SetSelectedEntity]
  split <;> split <;> rfl

@[simp] lemma SetSelectedEntity_renderEngineEnabled (s : Simulator)
    (e : Option Nat) :
    (s.SetSelectedEntity e).1.renderEngineEnabled = s.renderEngineEnabled := by
  simp only [Simulator.SetSelectedEntity]
  split <;> split <;> rfl

@[simp] lemma SetSelectedEntity_physicsEnabled (s : Simulator)
    (e : Option Nat) :
    (s.SetSelectedEntity e).1.physicsEnabled = s.physicsEnabled := by
  simp only [Simulator.SetSelectedEntity]
  split <;> split <;> rfl

@[simp] lemma timeAdvance_startTime (st : ℚ) (s : Simulator) :
    (timeAdvance st s).1.startTime = s.startTime := by
  unfold timeAdvance; split <;> rfl

@[simp] lemma timeAdvance_pause (st : ℚ) (s : Simulator) :
    (timeAdvance st s).1.pause = s.pause := by
  unfold timeAdvance; split <;> rfl

@[simp] lemma timeAdvance_stepInc (st : ℚ) (s : Simulator) :
    (timeAdvance st s).1.stepInc = s.stepInc := by
  unfold timeAdvance; split <;> rfl

@[simp] lemma timeAdvance_userQuit (st : ℚ) (s : Simulator) :
    (timeAdvance st s).1.userQuit = s.userQuit := by
  unfold timeAdvance; split <;> rfl

@[simp] lemma timeAdvance_timeout (st : ℚ) (s : Simulator) :
    (timeAdvance st s).1.timeout = s.timeout := by
  unfold timeAdvance; split <;> rfl

@[simp] lemma timeAdvance_guiEnabled (st : ℚ) (s : Simulator) :
    (timeAdvance st s).1.guiEnabled = s.guiEnabled := by
  unfold timeAdvance; split <;> rfl

@[simp] lemma timeAdvance_renderEngineEnabled (st : ℚ) (s : Simulator) :
    (timeAdvance st s).1.renderEngineEnabled = s.renderEngineEnabled := by
  unfold timeAdvance; split <;> rfl

@[simp] lemma timeAdvance_physicsEnabled (st : ℚ) (s : Simulator) :
    (timeAdvance st s).1.physicsEnabled = s.physicsEnabled := by
  unfold timeAdvance; split <;> rfl

@[simp] lemma physicsIter_startTime (p : PhysicsParams) (rt : RT)
    (s : Simulator) :
    (physicsIter p rt s).sim.startTime = s.startTime := by
  simp only [physicsIter]
  split
  · simp
  · split <;> simp

@[simp] lemma physicsIter_guiEnabled (p : PhysicsParams) (rt : RT)
    (s : Simulator) :
    (physicsIter p rt s).sim.guiEnabled = s.guiEnabled := by
  simp only [physicsIter]
  split
  · simp
  · split <;> simp

@[simp] lemma physicsIter_renderEngineEnabled (p : PhysicsParams) (rt : RT)
    (s : Simulator) :
    (physicsIter p rt s).sim.renderEngineEnabled = s.renderEngineEnabled := by
  simp only [physicsIter]
  split
  · simp
  · split <;> simp

@[simp] lemma physicsIter_physicsEnabled (p : PhysicsParams) (rt : RT)
    (s : Simulator) :
    (physicsIter p rt s).sim.physicsEnabled = s.physicsEnabled := by
  simp only [physicsIter]
  split
  · simp
  · split <;> simp

lemma applyOp_startTime (s : Simulator) (op : Op) :
    (applyOp s op).startTime = s.startTime := by
  cases op <;>
    simp [applyOp, Simulator.SetUserQuit, Simulator.SetTimeout,
      Simulator.SetSimTime, Simulator.SetGuiEnabled,
      Simulator.SetRenderEngineEnabled, Simulator.SetPhysicsEnabled]

lemma applyOps_startTime (ops : List Op) :
    ∀ s : Simulator, (applyOps s ops).startTime = s.startTime := by
  induction ops with
  | nil => intro s; rfl
  | cons op rest ih =>
      intro s
      show (applyOps (applyOp s op) rest).startTime = s.startTime
      rw [ih, applyOp_startTime]

/-- C7: at every observation point, after any sequence of operations on a
constructed simulator, GetRealTime equals GetWallTime minus GetStartTime,
and the start time still equals the wall reading taken at construction:
no operation ever changes startTime. -/
theorem realTime_eq_wall_sub_start :
    ∀ (wall0 wallNow : ℚ) (ops : List Op),
      (applyOps (Simulator.construct wall0) ops).GetRealTime wallNow
        = Simulator.GetWallTime wallNow
          - (applyOps (Simulator.construct wall0) ops).GetStartTime
      ∧ (applyOps (Simulator.construct wall0) ops).GetStartTime = wall0 := by
  intro wall0 wallNow ops
  refine ⟨rfl, ?_⟩
  show (applyOps (Simulator.construct wall0) ops).startTime = wall0
  rw [applyOps_startTime]
  rfl

/-- C8 counterexample: a simulator that has completed Load (loaded = true,
guiEnabled = true) still has its gui flag changed by a subsequent
SetGuiEnabled(false) call; the code does not make the enable flags immutable
after Load. -/
theorem enable_flags_mutable_after_load_cex :
    (applyOp (Simulator.construct 0) Op.load).loaded = true
    ∧ (applyOp (Simulator.construct 0) Op.load).guiEnabled = true
    ∧ (applyOp (applyOp (Simulator.construct 0) Op.load)
        (Op.setGuiEnabled false)).guiEnabled = false :=
  ⟨rfl, rfl, rfl⟩

/-- C8 amended: the three subsystem-enable flags are changed only by their
dedicated setters (each of which unconditionally assigns its argument, at any
time, before or after Load); every other operation, Load itself included,
leaves all three flags unchanged. -/
theorem enable_flags_only_setters :
    ∀ (s : Simulator) (op : Op) (b : Bool),
      ((∀ c, op ≠ Op.setGuiEnabled c) →
        (applyOp s op).guiEnabled = s.guiEnabled)
      ∧ ((∀ c, op ≠ Op.setRenderEngineEnabled c) →
        (applyOp s op).renderEngineEnabled = s.renderEngineEnabled)
      ∧ ((∀ c, op ≠ Op.setPhysicsEnabled c) →
        (applyOp s op).physicsEnabled = s.physicsEnabled)
      ∧ (applyOp s (Op.setGuiEnabled b)).guiEnabled = b
      ∧ (applyOp s (Op.setRenderEngineEnabled b)).renderEngineEnabled = b
      ∧ (applyOp s (Op.setPhysicsEnabled b)).physicsEnabled = b := by
  intro s op b
  refine ⟨fun hne => ?_, fun hne => ?_, fun hne => ?_, rfl, rfl, rfl⟩ <;>
    cases op <;>
      first
        | rfl
        | exact absurd rfl (hne _)
        | simp [applyOp]

/-- Witness for enable_flags_only_setters at SetUserQuit on a freshly
constructed simulator. -/
theorem enable_flags_only_setters_witness :
    (applyOp (Simulator.construct 0) Op.setUserQuit).guiEnabled
      = (Simulator.construct 0).guiEnabled
    ∧ (applyOp (Simulator.construct 0) Op.setUserQuit).renderEngineEnabled
      = (Simulator.construct 0).renderEngineEnabled
    ∧ (applyOp (Simulator.construct 0) Op.setUserQuit).physicsEnabled
      = (Simulator.construct 0).physicsEnabled := by
  have h := enable_flags_only_setters (Simulator.construct 0) Op.setUserQuit
    false
  exact ⟨h.1 (fun c hc => Op.noConfusion hc),
    h.2.1 (fun c hc => Op.noConfusion hc),
    h.2.2.1 (fun c hc => Op.noConfusion hc)⟩

lemma physicsIter_sleepReq (p : PhysicsParams) (rt : RT) (s : Simulator) :
    (physicsIter p rt s).sleepReq
      = physicsSleepTime p rt (timeAdvance p.step s).1 := by
  simp only [physicsIter]
  split
  · rfl
  · split <;> rfl

lemma physicsIter_simTime (p : PhysicsParams) (rt : RT) (s : Simulator) :
    (physicsIter p rt s).sim.simTime = (timeAdvance p.step s).1.simTime := by
  simp only [physicsIter]
  split
  · rfl
  · split <;> simp

lemma physicsIter_pauseTime (p : PhysicsParams) (rt : RT) (s : Simulator) :
    (physicsIter p rt s).sim.pauseTime
      = (timeAdvance p.step s).1.pauseTime := by
  simp only [physicsIter]
  split
  · rfl
  · split <;> simp

lemma physicsIter_paused (p : PhysicsParams) (rt : RT) (s : Simulator)
    (hp : s.pause = true) (hs : s.stepInc = false) :
    (physicsIter p rt s).sim.simTime = s.simTime
    ∧ (physicsIter p rt s).sim.pauseTime = s.pauseTime + p.step
    ∧ (physicsIter p rt s).sim.pause = true
    ∧ (physicsIter p rt s).sim.stepInc = false := by
  have hta : timeAdvance p.step s
      = ({ s with pauseTime := s.pauseTime + p.step }, false) := by
    unfold timeAdvance
    simp [Simulator.IsPaused, Simulator.GetStepInc, hp, hs]
  simp only [physicsIter, hta]
  split
  · simp [hp, hs]
  · simp [hp, hs]

lemma physicsLoopN_paused (p : PhysicsParams) :
    ∀ (rts : List RT) (s : Simulator), s.pause = true → s.stepInc = false →
      (physicsLoopN p rts s).simTime = s.simTime := by
  intro rts
  induction rts with
  | nil => intro s _ _; rfl
  | cons rt rest ih =>
      intro s hp hs
      simp only [physicsLoopN]
      split
      · rfl
      · have h := physicsIter_paused p rt s hp hs
        rw [ih _ h.2.2.1 h.2.2.2, h.1]

/-- C2: a physics-loop iteration executed while paused with no step request
leaves simTime unchanged and advances pauseTime by exactly one physics step,
and across any number of consecutive loop iterations from such a state
simTime is invariant. -/
theorem paused_iterations_freeze_simTime :
    ∀ (p : PhysicsParams) (rt : RT) (rts : List RT) (s : Simulator),
      s.pause = true → s.stepInc = false →
      (physicsIter p rt s).sim.simTime = s.simTime
      ∧ (physicsIter p rt s).sim.pauseTime = s.pauseTime + p.step
      ∧ (physicsLoopN p rts s).simTime = s.simTime := by
  intro p rt rts s hp hs
  have h := physicsIter_paused p rt s hp hs
  exact ⟨h.1, h.2.1, physicsLoopN_paused p rts s hp hs⟩

/-- Witness for paused_iterations_freeze_simTime on a freshly constructed,
paused simulator, a unit step and two further iterations. -/
theorem paused_iterations_freeze_simTime_witness :
    (physicsIter paramsSample rtSample pausedSample).sim.simTime
      = pausedSample.simTime
    ∧ (physicsIter paramsSample rtSample pausedSample).sim.pauseTime
      = pausedSample.pauseTime + paramsSample.step
    ∧ (physicsLoopN paramsSample [rtSample, rtSample] pausedSample).simTime
      = pausedSample.simTime :=
  paused_iterations_freeze_simTime paramsSample rtSample [rtSample, rtSample]
    pausedSample rfl rfl

/-- C1 counterexample: with paused = true and a configured timeout of 1,
calling SetStepInc(true) and running one physics-loop iteration whose
timeout-check reading is 2 exits through the timeout break before the
re-pause block, so at the end of that iteration stepRequested is still true,
contradicting the claim that it is false at the end of the step iteration
for every paused state. -/
theorem singleStep_timeout_break_cex :
    timeoutSample.pause = true
    ∧ (physicsIter paramsSample rtTimeoutSample
        (timeoutSample.SetStepInc true)).sim.stepInc = true
    ∧ (physicsIter paramsSample rtTimeoutSample
        (timeoutSample.SetStepInc true)).sim.userQuit = true := by
  refine ⟨rfl, ?_, ?_⟩ <;> decide

/-- C1 amended: from any state (paused or meanwhile unpaused), after
SetStepInc(true), the next physics-loop iteration advances simTime by exactly
one physics step, and provided the timeout break does not fire during that
iteration, the iteration ends with paused = true, stepRequested = false and
the loop continuing. -/
theorem singleStep_repause :
    ∀ (p : PhysicsParams) (rt : RT) (s : Simulator),
      ¬ (s.timeout > 0 ∧ rt.rTimeout > s.timeout) →
      (physicsIter p rt (s.SetStepInc true)).sim.simTime = s.simTime + p.step
      ∧ (physicsIter p rt (s.SetStepInc true)).sim.pause = true
      ∧ (physicsIter p rt (s.SetStepInc true)).sim.stepInc = false
      ∧ (physicsIter p rt (s.SetStepInc true)).brokeOut = false := by
  intro p rt s hto
  have hta : timeAdvance p.step (s.SetStepInc true)
      = ({ s.SetStepInc true with simTime := s.simTime + p.step }, true) := by
    unfold timeAdvance
    simp [Simulator.IsPaused, Simulator.GetStepInc, Simulator.SetStepInc]
  simp only [physicsIter, hta]
  split
  · next h => exact absurd h hto
  · simp

/-- Witness for singleStep_repause: a paused, freshly constructed simulator
(timeout = -1, so the break cannot fire). -/
theorem singleStep_repause_witness :
    (physicsIter paramsSample rtSample
        (pausedSample.SetStepInc true)).sim.simTime
      = pausedSample.simTime + paramsSample.step
    ∧ (physicsIter paramsSample rtSample
        (pausedSample.SetStepInc true)).sim.pause = true
    ∧ (physicsIter paramsSample rtSample
        (pausedSample.SetStepInc true)).sim.stepInc = false
    ∧ (physicsIter paramsSample rtSample
        (pausedSample.SetStepInc true)).brokeOut = false :=
  singleStep_repause paramsSample rtSample pausedSample (by decide)

/-- C3: the physics-loop sleep request follows exactly the three-case policy:
with a negative configured rate and simTime + pauseTime ahead of the real
time reading, sleep for the difference; with a positive rate and the elapsed
real time between the two iteration readings below 1/rate, sleep for the
remainder of the period; otherwise sleep the fixed default quantum of 10000
nanoseconds, which is non-zero. -/
theorem physics_sleep_policy :
    ∀ (p : PhysicsParams) (s : Simulator) (r0 rL rC r rT : ℚ),
      (physicsIter p (RT.mk r0 rL rC r r rT) s).sleepReq
        = (if p.physicsUpdateRate < 0
              ∧ (physicsIter p (RT.mk r0 rL rC r r rT) s).sim.GetSimTime
                + (physicsIter p (RT.mk r0 rL rC r r rT) s).sim.GetPauseTime
                > r
           then (physicsIter p (RT.mk r0 rL rC r r rT) s).sim.GetSimTime
                + (physicsIter p (RT.mk r0 rL rC r r rT) s).sim.GetPauseTime
                - r
           else if p.physicsUpdateRate > 0
              ∧ rC - rL < 1 / p.physicsUpdateRate
           then 1 / p.physicsUpdateRate - (rC - rL)
           else defaultSleepQuantum)
      ∧ (0 : ℚ) < defaultSleepQuantum := by
  intro p s r0 rL rC r rT
  constructor
  · simp only [Simulator.GetSimTime, Simulator.GetPauseTime,
      physicsIter_sleepReq, physicsIter_simTime, physicsIter_pauseTime]
    rfl
  · norm_num [defaultSleepQuantum]

/-- C4: a physics-loop iteration ends with quitRequested true exactly when it
was already true or the timeout is configured and the iteration's
timeout-check real-time reading exceeds it; the iteration breaks out of the
loop exactly when that timeout condition holds; and once quitRequested is
set the loop performs no further iterations. -/
theorem timeout_sets_userQuit_iff :
    ∀ (p : PhysicsParams) (rt : RT) (s : Simulator) (rts : List RT),
      (physicsIter p rt s).sim.userQuit
        = (s.userQuit || decide (s.timeout > 0 ∧ rt.rTimeout > s.timeout))
      ∧ (physicsIter p rt s).brokeOut
        = decide (s.timeout > 0 ∧ rt.rTimeout > s.timeout)
      ∧ physicsLoopN p rts s.SetUserQuit = s.SetUserQuit := by
  intro p rt s rts
  refine ⟨?_, ?_, ?_⟩
  · simp only [physicsIter]
    split
    · next h =>
        rw [timeAdvance_timeout] at h
        simp [h]
    · next h =>
        rw [timeAdvance_timeout] at h
        split <;> simp [h]
  · simp only [physicsIter]
    split
    · next h =>
        rw [timeAdvance_timeout] at h
        simp [h]
    · next h =>
        rw [timeAdvance_timeout] at h
        split <;> simp [h]
  · cases rts <;> simp [physicsLoopN, Simulator.SetUserQuit]

lemma checkLocks_iter_base :
    checkLocks (lockEvents
      ++ [PhysEvent.sleepEv, PhysEvent.updateSimIface]) 0 0 = true
    ∧ (lockEvents
        ++ [PhysEvent.sleepEv, PhysEvent.updateSimIface]).count
        PhysEvent.worldUpdate = 1 := by
  decide

lemma checkLocks_iter_stepped :
    checkLocks (lockEvents ++ [PhysEvent.sleepEv, PhysEvent.updateSimIface]
      ++ setterLockEvents) 0 0 = true
    ∧ (lockEvents ++ [PhysEvent.sleepEv, PhysEvent.updateSimIface]
        ++ setterLockEvents).count PhysEvent.worldUpdate = 1 := by
  decide

/-- C6: on every physics-loop iteration the event trace satisfies the lock
discipline — modelDeleteLock is only acquired while worldLock is held (fixed
order), the world update runs with both locks held and is immediately
followed by the release of both, no lock is held during the sleep, all locks
are released by the end of the iteration — and the world update runs exactly
once per iteration. -/
theorem physics_lock_discipline :
    ∀ (p : PhysicsParams) (rt : RT) (s : Simulator),
      checkLocks (physicsIter p rt s).events 0 0 = true
      ∧ (physicsIter p rt s).events.count PhysEvent.worldUpdate = 1 := by
  intro p rt s
  simp only [physicsIter]
  split
  · exact checkLocks_iter_base
  · split
    · exact checkLocks_iter_stepped
    · exact checkLocks_iter_base

/-- C5 counterexample: when currTime - lastTime equals exactly 1/80 the
claimed condition (greater or equal) holds but the loop takes the else
branch and performs no frame (the code compares with strict greater-than);
moreover when a frame is performed, lastTime is recorded from a wall reading
taken before the frame work (here 5), not after it (here 9), and the frame
branch itself sleeps when the frame finished early, which the claim reserves
for the no-frame branch. -/
theorem mainLoop_frame_boundary_cex :
    ((1 : ℚ) / 80 - 0 ≥ 1 / 80)
    ∧ (mainLoopIter 80 (WallReads.mk (1 / 80) (1 / 80) (1 / 80)) 0).frame
      = false
    ∧ (mainLoopIter 80 (WallReads.mk 1 5 9) 0).frame = true
    ∧ (mainLoopIter 80 (WallReads.mk 1 5 9) 0).lastTime = 5
    ∧ (mainLoopIter 80 (WallReads.mk 1 5 9) 0).lastTime ≠ 9
    ∧ (mainLoopIter 80 (WallReads.mk 1 1 (1 + 1 / 1000)) 0).frame = true
    ∧ (mainLoopIter 80 (WallReads.mk 1 1 (1 + 1 / 1000)) 0).sleepReq
      = some (1 / 80 - 1 / 1000) := by
  refine ⟨by norm_num, ?_, ?_, ?_, ?_, ?_, ?_⟩ <;> norm_num [mainLoopIter]

/-- C5 amended: each main-loop iteration reads currTime; a frame (GUI update,
camera update, graphics refresh, deferred entity processing) is performed
exactly when currTime - lastTime is strictly greater than 1/80; in that case
lastTime is recorded from a wall reading taken before the frame work, and
after the frame the iteration sleeps the remainder of the period if the
post-frame reading leaves any, otherwise it does not sleep; when no frame is
performed the iteration sleeps 1/80 - (currTime - lastTime); the loop stops
iterating as soon as quitRequested is observed true, joining the physics
thread, and otherwise keeps iterating with the updated lastTime. -/
theorem mainLoop_iteration_spec :
    ∀ (w : WallReads) (lt : ℚ) (obs : List (Bool × WallReads)),
      (mainLoopIter 80 w lt).frame = decide (w.w0 - lt > 1 / 80)
      ∧ (w.w0 - lt > 1 / 80 →
          (mainLoopIter 80 w lt).lastTime = w.w1
          ∧ (mainLoopIter 80 w lt).sleepReq
            = (if w.w2 - w.w1 < 1 / 80
               then some (1 / 80 - (w.w2 - w.w1)) else none))
      ∧ (¬ w.w0 - lt > 1 / 80 →
          (mainLoopIter 80 w lt).lastTime = lt
          ∧ (mainLoopIter 80 w lt).sleepReq
            = some (1 / 80 - (w.w0 - lt)))
      ∧ mainLoopRun 80 ((true, w) :: obs) lt = ([], true)
      ∧ (mainLoopRun 80 ((false, w) :: obs) lt).1
        = mainLoopIter 80 w lt
          :: (mainLoopRun 80 obs (mainLoopIter 80 w lt).lastTime).1 := by
  intro w lt obs
  refine ⟨?_, fun h => ?_, fun h => ?_, rfl, rfl⟩
  · by_cases h : w.w0 - lt > 1 / 80
    · simp only [mainLoopIter]
      rw [if_pos h, decide_eq_true h]
      split <;> rfl
    · simp only [mainLoopIter]
      rw [if_neg h, decide_eq_false h]
  · simp only [mainLoopIter]
    rw [if_pos h]
    constructor
    · split <;> rfl
    · split <;> rfl
  · simp only [mainLoopIter]
    rw [if_neg h]
    exact ⟨rfl, rfl⟩

/-- Witness for mainLoop_iteration_spec: one input taking the frame branch
without a post-frame sleep, one input taking the no-frame branch. -/
theorem mainLoop_iteration_spec_witness :
    ((mainLoopIter 80 (WallReads.mk 1 5 9) 0).lastTime
        = (WallReads.mk 1 5 9).w1
      ∧ (mainLoopIter 80 (WallReads.mk 1 5 9) 0).sleepReq
        = (if (WallReads.mk 1 5 9).w2 - (WallReads.mk 1 5 9).w1 < 1 / 80
           then some (1 / 80
             - ((WallReads.mk 1 5 9).w2 - (WallReads.mk 1 5 9).w1))
           else none))
    ∧ ((mainLoopIter 80 (WallReads.mk 0 0 0) 0).lastTime = 0
      ∧ (mainLoopIter 80 (WallReads.mk 0 0 0) 0).sleepReq
        = some (1 / 80 - ((WallReads.mk 0 0 0).w0 - 0))) :=
  ⟨(mainLoop_iteration_spec (WallReads.mk 1 5 9) 0 []).2.1 (by norm_num),
   (mainLoop_iteration_spec (WallReads.mk 0 0 0) 0 []).2.2.1 (by norm_num)⟩

end Gazebo
